import Mathlib

set_option autoImplicit false
set_option linter.unusedVariables false

namespace Swippcore

/-!
Verification development for the swippcore bootstrap-and-lifecycle driver
(`src/unnamed/part_000`, the init/shutdown translation unit) and the composite
key hashing utility (`src/daemon/collectionhashing.h`).

Every definition is a shallow embedding of the corresponding C++ source:
configuration lookups (`GetArg`/`GetBoolArg`) become reads of an explicit
argument record, external collaborators (address resolution, socket binding,
database environments, key validation) become oracle parameters, and the
straight-line bodies of `AppInit2` and `Shutdown` become pure functions that
also return the chronological list of side-effect events they perform.
-/

/-! ## Shutdown (src/unnamed/part_000, lines 82-128)

`Shutdown` renames its thread, pokes the mempool, stops the RPC threads and
the secure-messaging subsystem, shuts down RPC mining, performs an
asynchronous wallet-database flush, stops the node, persists the best-chain
locator, performs the final wallet flush, removes the pid file, unregisters
all wallets and deletes the wallet object.  All wallet-touching steps are
guarded by `pwalletMain` being non-null, which we model with a
`walletPresent` flag.  The whole body is guarded by `TRY_LOCK` on a static
critical section: the lock is scope-bound, so it is held exactly while one
invocation of the body runs and is released again when that invocation
returns. -/

/-- One observable teardown step of `Shutdown`; `flushWallet b` is
`bitdb.Flush(b)` with `b` the `fShutdown` argument. -/
inductive SEvent where
  | addTransactionsUpdated
  | stopRPCThreads
  | secureMsgShutdown
  | shutdownRPCMining
  | flushWallet (fShutdown : Bool)
  | stopNode
  | setBestChain
  | removePidFile
  | unregisterAllWallets
  | deleteWallet
  deriving DecidableEq, Repr

/-- Chronological event list of the teardown body of `Shutdown`
(src/unnamed/part_000 lines 92-127), i.e. everything after the `TRY_LOCK`
guard succeeded. -/
def shutdownBody (walletPresent : Bool) : List SEvent :=
  [SEvent.addTransactionsUpdated, SEvent.stopRPCThreads, SEvent.secureMsgShutdown,
   SEvent.shutdownRPCMining]
  ++ (if walletPresent then [SEvent.flushWallet false] else [])
  ++ [SEvent.stopNode]
  ++ (if walletPresent then [SEvent.setBestChain] else [])
  ++ (if walletPresent then [SEvent.flushWallet true] else [])
  ++ [SEvent.removePidFile, SEvent.unregisterAllWallets]
  ++ (if walletPresent then [SEvent.deleteWallet] else [])

/-- One invocation of `Shutdown` (src/unnamed/part_000 lines 82-128).
`lockAcquired` is the outcome of `TRY_LOCK(cs_Shutdown, lockShutdown)`:
`false` models a caller arriving while another invocation currently holds
the scoped lock (that caller returns at line 90 having run no teardown
step); `true` models a caller that finds the lock free, which is the case
both for the first caller and for any caller arriving after a previous
invocation has completed and its scoped lock was released. -/
def Shutdown (lockAcquired : Bool) (walletPresent : Bool) : List SEvent :=
  if lockAcquired then shutdownBody walletPresent else []

/-! ## Stake-kernel collections (src/unnamed/part_000, lines 342-347 and
src/daemon/collectionhashing.h)

`InitializeCollections` configures the two google `dense_hash_set`
collections keyed by `(COutPoint, unsigned int)`: `setStakeSeen` receives
only an empty-key sentinel, `setStakeSeenOrphan` receives an empty-key and a
deleted-key sentinel. -/

/-- Upper bound of `unsigned int`, i.e. `std::numeric_limits<unsigned int>::max()`. -/
def UINT32_MAX : Nat := 4294967295

/-- A transaction output reference: 256-bit transaction hash plus output
index, both kept as `Nat` (the hash is the value of the 256-bit identifier). -/
structure COutPoint where
  hash : Nat
  n : Nat
  deriving DecidableEq, Repr

/-- Modelled from the spec: `core.h` (which declares `COutPoint`) is not in
the sources; the default-constructed `COutPoint()` used for the sentinel
keys is the null reference (zero hash, output index `(unsigned int) -1`),
which the spec distinguishes from any real "spent-output-reference". -/
def COutPoint.null : COutPoint := ⟨0, UINT32_MAX⟩

/-- A stake-kernel set key: `(spent-output-reference, timestamp)`. -/
abbrev StakeKey := COutPoint × Nat

/-- Sentinel configuration of one open-addressed `dense_hash_set`:
the reserved empty key (`set_empty_key`) and, if configured, the reserved
deleted key (`set_deleted_key`). -/
structure DenseHashSetCfg where
  emptyKey : Option StakeKey
  deletedKey : Option StakeKey
  deriving DecidableEq, Repr

/-- The sentinel configurations of the two seen-stake-kernel sets. -/
structure StakeCollections where
  setStakeSeen : DenseHashSetCfg
  setStakeSeenOrphan : DenseHashSetCfg
  deriving DecidableEq, Repr

/-- `InitializeCollections` (src/unnamed/part_000 lines 342-347):
`setStakeSeen.set_empty_key((COutPoint(), UINT_MAX))`;
`setStakeSeenOrphan.set_empty_key((COutPoint(), UINT_MAX))`;
`setStakeSeenOrphan.set_deleted_key((COutPoint(), UINT_MAX - 1))`.
No deleted key is ever configured for `setStakeSeen`. -/
def InitializeCollections : StakeCollections :=
  { setStakeSeen :=
      { emptyKey := some (COutPoint.null, UINT32_MAX), deletedKey := none },
    setStakeSeenOrphan :=
      { emptyKey := some (COutPoint.null, UINT32_MAX),
        deletedKey := some (COutPoint.null, UINT32_MAX - 1) } }

/-- Modelled from the spec: the google `dense_hash_set` container itself is
third-party code outside the sources.  Per the spec it is an open-addressed
set whose two reserved sentinel key values are distinct from any real key;
a sentinel is usable only as a slot marker, so it is never insertable and
never reported as a member. -/
structure DenseHashSet where
  cfg : DenseHashSetCfg
  elems : List StakeKey

/-- Whether `k` equals one of the configured sentinel key values. -/
def DenseHashSet.isSentinel (s : DenseHashSet) (k : StakeKey) : Bool :=
  s.cfg.emptyKey == some k || s.cfg.deletedKey == some k

/-- Modelled from the spec: insertion into the open-addressed set; a key
equal to a reserved sentinel value is not insertable. -/
def DenseHashSet.insertKey (s : DenseHashSet) (k : StakeKey) : DenseHashSet :=
  if s.isSentinel k then s else { s with elems := k :: s.elems }

/-- Modelled from the spec: membership in the open-addressed set; a
sentinel marker is never reported as present. -/
def DenseHashSet.containsKey (s : DenseHashSet) (k : StakeKey) : Bool :=
  if s.isSentinel k then false else s.elems.contains k

/-! ## Raw configuration arguments

The parsed option map (`mapArgs` / `mapMultiArgs`) restricted to the options
the startup driver reads.  A field of type `Option _` is `none` exactly when
the operator did not supply the option; list-valued fields model
`mapMultiArgs` entries, present when nonempty. -/

/-- The operator-supplied arguments that `AppInit2` reads. -/
structure Args where
  testnet : Bool
  bind : List String
  connect : List String
  proxy : Option String
  tor : Option String
  externalip : List String
  seednode : List String
  onlynet : List String
  socks : Bool
  listen : Option Bool
  dnsseed : Option Bool
  discover : Option Bool
  upnp : Option Bool
  rescan : Option Bool
  irc : Option Bool
  salvagewallet : Option Bool
  dns : Option Bool
  timeout : Option Int
  masternode : Option Bool
  masternodeaddr : Option String
  masternodeprivkey : Option String
  litemode : Option Bool
  enabledarksend : Option Bool
  darksendrounds : Option Int
  liquidityprovider : Option Int
  anonymizeSwippamount : Option Int
  enableinstantx : Option Bool
  instantxdepth : Option Int

/-- An argument record with nothing supplied by the operator. -/
def emptyArgs : Args :=
  { testnet := false, bind := [], connect := [], proxy := none, tor := none,
    externalip := [], seednode := [], onlynet := [], socks := false,
    listen := none, dnsseed := none, discover := none, upnp := none,
    rescan := none, irc := none, salvagewallet := none, dns := none,
    timeout := none, masternode := none, masternodeaddr := none,
    masternodeprivkey := none, litemode := none, enabledarksend := none,
    darksendrounds := none, liquidityprovider := none,
    anonymizeSwippamount := none, enableinstantx := none,
    instantxdepth := none }

/-! ## Parameter interactions (src/unnamed/part_000, lines 421-474) -/

/-- Modelled from the spec: `SoftSetBoolArg` lives in `util.cpp`, which is
not in the sources.  Per the spec's definition of a soft-set, it assigns
`v` only when the option has no value yet and leaves an already-present
value untouched. -/
def softSetBoolArg (cur : Option Bool) (v : Bool) : Option Bool :=
  match cur with
  | some b => some b
  | none => some v

/-- `if (TestNet()) SoftSetBoolArg("-irc", true)` (line 421-422). -/
def stepTestnet (a : Args) : Args :=
  if a.testnet then { a with irc := softSetBoolArg a.irc true } else a

/-- `if (mapArgs.count("-bind")) SoftSetBoolArg("-listen", true)`
(lines 424-429). -/
def stepBind (a : Args) : Args :=
  if a.bind.isEmpty then a else { a with listen := softSetBoolArg a.listen true }

/-- `if (mapArgs.count("-connect") && mapMultiArgs["-connect"].size() > 0)`:
soft-set `-dnsseed` and `-listen` to false (lines 431-439). -/
def stepConnect (a : Args) : Args :=
  if a.connect.isEmpty then a
  else { a with dnsseed := softSetBoolArg a.dnsseed false,
                listen := softSetBoolArg a.listen false }

/-- `if (mapArgs.count("-proxy"))`: soft-set `-listen` and `-discover` to
false (lines 441-450). -/
def stepProxy (a : Args) : Args :=
  match a.proxy with
  | some _ => { a with listen := softSetBoolArg a.listen false,
                       discover := softSetBoolArg a.discover false }
  | none => a

/-- `if (!GetBoolArg("-listen", true))`: soft-set `-upnp` and `-discover`
to false (lines 452-460); reads the possibly already soft-set `-listen`. -/
def stepListen (a : Args) : Args :=
  if a.listen.getD true then a
  else { a with upnp := softSetBoolArg a.upnp false,
                discover := softSetBoolArg a.discover false }

/-- `if (mapArgs.count("-externalip"))`: soft-set `-discover` to false
(lines 462-467). -/
def stepExternalip (a : Args) : Args :=
  if a.externalip.isEmpty then a
  else { a with discover := softSetBoolArg a.discover false }

/-- `if (GetBoolArg("-salvagewallet", false))`: soft-set `-rescan` to true
(lines 469-474). -/
def stepSalvage (a : Args) : Args :=
  if a.salvagewallet.getD false then { a with rescan := softSetBoolArg a.rescan true }
  else a

/-- The full parameter-interaction phase of `AppInit2`
(src/unnamed/part_000 lines 421-474), applying the declared rules in source
order. -/
def interact (a : Args) : Args :=
  stepSalvage (stepExternalip (stepListen (stepProxy (stepConnect (stepBind (stepTestnet a))))))

/-- The boolean options that the declared interaction rules may soft-set. -/
inductive BoolOpt where
  | listen
  | dnsseed
  | discover
  | upnp
  | rescan
  | irc
  deriving DecidableEq, Repr

/-- Read one of the soft-settable options from the argument record. -/
def getOpt (a : Args) : BoolOpt → Option Bool
  | .listen => a.listen
  | .dnsseed => a.dnsseed
  | .discover => a.discover
  | .upnp => a.upnp
  | .rescan => a.rescan
  | .irc => a.irc

/-- Arguments where the operator explicitly enabled `-listen` while also
setting `-proxy` and `-connect`, both of which would otherwise soft-set
`-listen` off. -/
def argsExplicitListen : Args :=
  { emptyArgs with listen := some true, proxy := some "127.0.0.1:9050",
                   connect := ["1.2.3.4"] }

/-! ## Numeric option resolution (src/unnamed/part_000, lines 508-514 and
1015-1054) -/

/-- `-timeout` handling (src/unnamed/part_000 lines 508-514): the global
`nConnectTimeout` starts at its 5000 default; a supplied value replaces it
only when `0 < v < 600000`, otherwise the supplied value is ignored without
any error. -/
def resolveTimeout : Option Int → Int
  | none => 5000
  | some v => if 0 < v ∧ v < 600000 then v else 5000

/-- The Darksend and InstantX globals assigned by the resolution block. -/
structure DarksendState where
  fEnableDarksend : Bool
  nDarksendRounds : Int
  nLiquidityProvider : Int
  nAnonymizeSwippAmount : Int
  nInstantXDepth : Int
  deriving DecidableEq, Repr

/-- The Darksend/InstantX resolution block of `AppInit2`
(src/unnamed/part_000 lines 1015-1054): read `-enabledarksend` and
`-darksendrounds`, clamp the rounds into `[1, 16]`; a nonzero
`-liquidityprovider` then force-enables Darksend and sets the rounds to
99999; read `-anonymizeSwippamount` and clamp it into `[2, 999999]`; when
InstantX is enabled, read `-instantxdepth`, clamp it to at most 60 and, if
the (clamped) depth is negative, set `nAnonymizeSwippAmount` to zero while
leaving the negative depth in place; with InstantX disabled the depth is
zero. -/
def resolveDarksendInstantX (a : Args) : DarksendState :=
  let fEnableDarksend := a.enabledarksend.getD false
  let nDarksendRounds := a.darksendrounds.getD 2
  let nDarksendRounds := if nDarksendRounds > 16 then 16 else nDarksendRounds
  let nDarksendRounds := if nDarksendRounds < 1 then 1 else nDarksendRounds
  let nLiquidityProvider := a.liquidityprovider.getD 0
  let fEnableDarksend := if nLiquidityProvider ≠ 0 then true else fEnableDarksend
  let nDarksendRounds := if nLiquidityProvider ≠ 0 then 99999 else nDarksendRounds
  let nAnonymizeSwippAmount := a.anonymizeSwippamount.getD 0
  let nAnonymizeSwippAmount :=
    if nAnonymizeSwippAmount > 999999 then 999999 else nAnonymizeSwippAmount
  let nAnonymizeSwippAmount :=
    if nAnonymizeSwippAmount < 2 then 2 else nAnonymizeSwippAmount
  let fEnableInstantX := a.enableinstantx.getD true
  if fEnableInstantX then
    let nInstantXDepth := a.instantxdepth.getD 5
    let nInstantXDepth := if nInstantXDepth > 60 then 60 else nInstantXDepth
    { fEnableDarksend := fEnableDarksend, nDarksendRounds := nDarksendRounds,
      nLiquidityProvider := nLiquidityProvider,
      nAnonymizeSwippAmount :=
        if nInstantXDepth < 0 then 0 else nAnonymizeSwippAmount,
      nInstantXDepth := nInstantXDepth }
  else
    { fEnableDarksend := fEnableDarksend, nDarksendRounds := nDarksendRounds,
      nLiquidityProvider := nLiquidityProvider,
      nAnonymizeSwippAmount := nAnonymizeSwippAmount, nInstantXDepth := 0 }

/-- Arguments supplying only a negative InstantX depth. -/
def negativeDepthArgs : Args := { emptyArgs with instantxdepth := some (-3) }

/-- Arguments with a liquidity provider plus explicit Darksend settings
that the override tramples. -/
def liquidityArgs : Args :=
  { emptyArgs with
      liquidityprovider := some 5
      enabledarksend := some false
      darksendrounds := some 4 }

/-- Arguments whose numeric options all lie outside their hard-coded
ranges. -/
def outOfRangeArgs : Args :=
  { emptyArgs with
      timeout := some 600000
      darksendrounds := some 100
      anonymizeSwippamount := some 7000000 }

/-! ## Wallet rescan start point (src/unnamed/part_000, lines 915-942) -/

/-- An in-memory block index entry; `blockId` stands for the pointer
identity of the `CBlockIndex*`, `nHeight` for its height field. -/
structure CBlockIndex where
  blockId : Nat
  nHeight : Int
  deriving DecidableEq, Repr

/-- The rescan start point computed after the wallet is loaded
(src/unnamed/part_000 lines 915-928): start at the best block; when
`-rescan` was requested, use the genesis block; otherwise, if
`walletdb.ReadBestBlock(locator)` succeeds, use the block the locator
resolves to (`locator.GetBlockIndex()`, passed here as the payload of
`readBestBlock`), and fall back to the genesis block when no best-block
record is persisted.  `none` models a null `CBlockIndex*`.  The source's
initial `pindexRescan = pindexBest` assignment is dead: every path
reassigns it, so `pindexBest` never survives as the start point. -/
def rescanStartPoint (rescanArg : Bool)
    (pindexBest pindexGenesisBlock : Option CBlockIndex)
    (readBestBlock : Option (Option CBlockIndex)) : Option CBlockIndex :=
  if rescanArg then pindexGenesisBlock
  else
    match readBestBlock with
    | some locatorIndex => locatorIndex
    | none => pindexGenesisBlock

/-- Height of a possibly-null block index pointer; only read under a
null-check in `rescanNeeded`, mirroring `pindexBest->nHeight`. -/
def heightOf : Option CBlockIndex → Int
  | some b => b.nHeight
  | none => 0

/-- The rescan guard (src/unnamed/part_000 line 930):
`pindexBest != pindexRescan && pindexBest && pindexRescan &&
pindexBest->nHeight > pindexRescan->nHeight`. -/
def rescanNeeded (pindexBest pindexRescan : Option CBlockIndex) : Bool :=
  decide (pindexBest ≠ pindexRescan) && pindexBest.isSome && pindexRescan.isSome
    && decide (heightOf pindexBest > heightOf pindexRescan)

/-! ## Startup pipeline (src/unnamed/part_000, `AppInit2`)

The remaining phases of `AppInit2` that the claims touch, embedded in
source order: the `-socks` rejection, `-timeout`, `-onlynet` limiting,
proxy and Tor registration, listen binding, `-externalip` registration,
masternode activation, Darksend/InstantX resolution and the lite-mode
check.  Phases owned by external collaborators (instance guard, wallet
database environment, block-index load, address book, disk-space check)
sit between the bind phase and the masternode phase in the source and are
elided here as succeeding; the collaborators the embedded phases do call
(address parsing and resolution, socket binding, masternode key loading)
are supplied as the oracle record `Ext`. -/

/-- Network classes distinguished by the network bootstrapper. -/
inductive Net where
  | ipv4
  | ipv6
  | tor
  | unroutable
  deriving DecidableEq, Repr

/-- Oracles for the external collaborators called from the embedded
phases: `parseNetwork` is `ParseNetwork`, `serviceValid` is
`CService(...).IsValid()`, `lookupOK` is `Lookup(...)` succeeding for a
`-bind` address, `netOf` gives the network class of a resolved bind
address, `bindListenOK` is `BindListenPort(...)` succeeding, and
`setKeyOK` is `darkSendSigner.SetKey(...)` succeeding. -/
structure Ext where
  parseNetwork : String → Net
  serviceValid : String → Bool
  lookupOK : String → Bool
  netOf : String → Net
  bindListenOK : String → Bool
  setKeyOK : String → Bool

/-- Observable side effects of the embedded phases, in chronological
order: a `BindListenPort` attempt on an address, or an `AddLocal`
registration of an external address. -/
inductive Event where
  | bindAttempt (addr : String)
  | addLocal (addr : String)
  deriving DecidableEq, Repr

/-- The distinguishable fatal startup errors of the embedded phases, each
carrying the offending value where the source message includes it. -/
inductive InitErr where
  | socksUnsupported
  | unknownOnlynet (s : String)
  | invalidProxyAddress (s : String)
  | invalidTorAddress (s : String)
  | cannotResolveBind (s : String)
  | bindFailed (s : String)
  | failedToListen
  | cannotResolveExternalIp (s : String)
  | invalidMasternodeAddr (s : String)
  | invalidMasternodePrivkey
  | missingMasternodePrivkey
  | masternodeInLitemode
  deriving DecidableEq, Repr

/-- The resolved effective configuration published by a successful run of
the embedded phases (the relevant globals assigned by `AppInit2`). -/
structure Effective where
  nConnectTimeout : Int
  fNoListen : Bool
  fDiscover : Bool
  fNameLookup : Bool
  proxyIPv4 : Option String
  proxyIPv6 : Option String
  proxyTor : Option String
  nameProxy : Option String
  fMasterNode : Bool
  fLiteMode : Bool
  fEnableDarksend : Bool
  nDarksendRounds : Int
  nLiquidityProvider : Int
  nAnonymizeSwippAmount : Int
  nInstantXDepth : Int
  deriving DecidableEq, Repr

/-- `IsLimited` after the `-onlynet` phase (src/unnamed/part_000 lines
657-681): with no `-onlynet`, no network is limited; otherwise every
network class not named is limited. -/
def limitedNets (ext : Ext) (onlynet : List String) (n : Net) : Bool :=
  if onlynet.isEmpty then false
  else !((onlynet.map ext.parseNetwork).contains n)

/-- The `-bind` loop (src/unnamed/part_000 lines 730-741): resolve each
address (fatal on failure), then `Bind(addrBind)` with `fError = true`:
a limited address contributes `false` silently, a successful
`BindListenPort` sets `fBound`, a failed one is fatal. -/
def bindLoop (ext : Ext) (limited : Net → Bool) :
    List String → Bool → List Event × Except InitErr Bool
  | [], fBound => ([], Except.ok fBound)
  | s :: rest, fBound =>
    if ext.lookupOK s then
      if limited (ext.netOf s) then bindLoop ext limited rest fBound
      else if ext.bindListenOK s then
        let r := bindLoop ext limited rest true
        (Event.bindAttempt s :: r.1, r.2)
      else ([Event.bindAttempt s], Except.error (InitErr.bindFailed s))
    else ([], Except.error (InitErr.cannotResolveBind s))

/-- The wildcard bind (src/unnamed/part_000 lines 743-752): IPv6 wildcard
with `fError = false` (failure tolerated), then IPv4 wildcard with
`fError = !fBound` (failure fatal only if nothing is bound yet); a limited
family is skipped without an attempt. -/
def wildcardBind (ext : Ext) (limited : Net → Bool) :
    List Event × Except InitErr Bool :=
  let p6 : List Event × Bool :=
    if limited Net.ipv6 then ([], false)
    else ([Event.bindAttempt "[::]"], ext.bindListenOK "[::]")
  if limited Net.ipv4 then (p6.1, Except.ok p6.2)
  else
    let evs := p6.1 ++ [Event.bindAttempt "0.0.0.0"]
    if ext.bindListenOK "0.0.0.0" then (evs, Except.ok true)
    else if p6.2 then (evs, Except.ok true)
    else (evs, Except.error (InitErr.bindFailed "0.0.0.0"))

/-- The `-externalip` loop (src/unnamed/part_000 lines 758-769): each
address is resolved (fatal on failure) and registered via `AddLocal`. -/
def externalIpLoop (ext : Ext) : List String → List Event × Except InitErr Unit
  | [] => ([], Except.ok ())
  | s :: rest =>
    if ext.serviceValid s then
      let r := externalIpLoop ext rest
      (Event.addLocal s :: r.1, r.2)
    else ([], Except.error (InitErr.cannotResolveExternalIp s))

/-- The masternode activation phase (src/unnamed/part_000 lines 982-1013):
when `-masternode` is set, a nonempty `-masternodeaddr` must be valid, and
a `-masternodeprivkey` must be present and load into `darkSendSigner`;
returns the resolved `fMasterNode`. -/
def masternodeStep (a : Args) (ext : Ext) : Except InitErr Bool :=
  if a.masternode.getD false then
    let strMasterNodeAddr := a.masternodeaddr.getD ""
    let addrCheck : Except InitErr Unit :=
      if strMasterNodeAddr.isEmpty then Except.ok ()
      else if ext.serviceValid strMasterNodeAddr then Except.ok ()
      else Except.error (InitErr.invalidMasternodeAddr strMasterNodeAddr)
    match addrCheck with
    | Except.error e => Except.error e
    | Except.ok _ =>
      let strMasterNodePrivKey := a.masternodeprivkey.getD ""
      if strMasterNodePrivKey.isEmpty then Except.error InitErr.missingMasternodePrivkey
      else if ext.setKeyOK strMasterNodePrivKey then Except.ok true
      else Except.error InitErr.invalidMasternodePrivkey
  else Except.ok false

/-- The embedded startup pipeline of `AppInit2`
(src/unnamed/part_000 lines 349-1151, restricted to the configuration,
network, masternode and mixing phases), returning the chronological event
list together with either the first fatal error or the published effective
configuration. -/
def AppInit2 (rawArgs : Args) (ext : Ext) : List Event × Except InitErr Effective :=
  let a := interact rawArgs
  if a.socks then ([], Except.error InitErr.socksUnsupported) else
  let nConnectTimeout := resolveTimeout a.timeout
  match a.onlynet.find? (fun s => ext.parseNetwork s == Net.unroutable) with
  | some s => ([], Except.error (InitErr.unknownOnlynet s))
  | none =>
  let limited := limitedNets ext a.onlynet
  let proxyRes : Except InitErr (Option String) :=
    match a.proxy with
    | some s =>
      if ext.serviceValid s then Except.ok (some s)
      else Except.error (InitErr.invalidProxyAddress s)
    | none => Except.ok none
  match proxyRes with
  | Except.error e => ([], Except.error e)
  | Except.ok addrProxy =>
  let proxyIPv4 := match addrProxy with
    | some s => if limited Net.ipv4 then none else some s
    | none => none
  let proxyIPv6 := match addrProxy with
    | some s => if limited Net.ipv6 then none else some s
    | none => none
  let nameProxy := addrProxy
  let torStep : Except InitErr (Option String) :=
    if !(a.tor == some "0") && (addrProxy.isSome || a.tor.isSome) then
      let addrOnion := match a.tor with
        | some t => t
        | none => addrProxy.getD ""
      if ext.serviceValid addrOnion then Except.ok (some addrOnion)
      else Except.error (InitErr.invalidTorAddress (a.tor.getD ""))
    else Except.ok none
  match torStep with
  | Except.error e => ([], Except.error e)
  | Except.ok proxyTor =>
  let fNoListen := !(a.listen.getD true)
  let fDiscover := a.discover.getD true
  let fNameLookup := a.dns.getD true
  let bindRes : List Event × Except InitErr Bool :=
    if fNoListen then ([], Except.ok false)
    else if a.bind.isEmpty then wildcardBind ext limited
    else bindLoop ext limited a.bind false
  match bindRes with
  | (evs, Except.error e) => (evs, Except.error e)
  | (evs, Except.ok fBound) =>
  if !fNoListen && !fBound then (evs, Except.error InitErr.failedToListen) else
  match externalIpLoop ext a.externalip with
  | (evs2, Except.error e) => (evs ++ evs2, Except.error e)
  | (evs2, Except.ok _) =>
  let evs := evs ++ evs2
  match masternodeStep a ext with
  | Except.error e => (evs, Except.error e)
  | Except.ok fMasterNode =>
  let ds := resolveDarksendInstantX a
  let fLiteMode := a.litemode.getD false
  if fMasterNode && fLiteMode then (evs, Except.error InitErr.masternodeInLitemode)
  else
    (evs, Except.ok
      { nConnectTimeout := nConnectTimeout
        fNoListen := fNoListen
        fDiscover := fDiscover
        fNameLookup := fNameLookup
        proxyIPv4 := proxyIPv4
        proxyIPv6 := proxyIPv6
        proxyTor := proxyTor
        nameProxy := nameProxy
        fMasterNode := fMasterNode
        fLiteMode := fLiteMode
        fEnableDarksend := ds.fEnableDarksend
        nDarksendRounds := ds.nDarksendRounds
        nLiquidityProvider := ds.nLiquidityProvider
        nAnonymizeSwippAmount := ds.nAnonymizeSwippAmount
        nInstantXDepth := ds.nInstantXDepth })

/-- An oracle environment in which every external operation succeeds. -/
def extAll : Ext :=
  { parseNetwork := fun _ => Net.ipv4
    serviceValid := fun _ => true
    lookupOK := fun _ => true
    netOf := fun _ => Net.ipv4
    bindListenOK := fun _ => true
    setKeyOK := fun _ => true }

/-- Arguments requesting masternode mode together with lite mode (with the
masternode private key the masternode phase requires). -/
def mnLiteArgs : Args :=
  { emptyArgs with
      masternode := some true
      litemode := some true
      masternodeprivkey := some "key" }

/-- Arguments supplying only an outbound SOCKS proxy. -/
def proxyOnlyArgs : Args := { emptyArgs with proxy := some "127.0.0.1:9050" }

/-! ## Claim theorems -/

/-- C4 counterexample: the claim states that when shutdown is triggered more
than once (repeatedly or concurrently) the teardown body executes exactly
once and every later caller re-runs no teardown step.  On the code the guard
is a scope-bound `TRY_LOCK`, released when the first invocation returns: a
repeated trigger after the first invocation completed finds the lock free
again and re-runs the full teardown body, so across two sequential triggers
the `StopNode` step executes twice, not once. -/
theorem shutdown_repeated_trigger_reruns_teardown :
    (Shutdown true true ++ Shutdown true true).count SEvent.stopNode = 2 := by
  decide

/-- C4 amended: a trigger arriving while a teardown invocation is in
progress (the try-lock is held) runs no teardown step, so concurrent
triggers collapse into a single execution of the body; but a trigger
arriving after a completed invocation (the scoped lock released) re-runs
the entire nonempty teardown body — the guard serialises, it does not
make the body once-only. -/
theorem shutdown_trylock_guard (walletPresent : Bool) :
    Shutdown false walletPresent = [] ∧
    Shutdown true walletPresent = shutdownBody walletPresent ∧
    shutdownBody walletPresent ≠ [] := by
  refine ⟨rfl, rfl, ?_⟩
  cases walletPresent <;> decide

/-- C4 amended witness: with a wallet present, an in-progress-time trigger
runs nothing and a fresh trigger runs the nonempty body. -/
theorem shutdown_trylock_guard_witness :
    Shutdown false true = [] ∧ Shutdown true true = shutdownBody true ∧
    shutdownBody true ≠ [] :=
  shutdown_trylock_guard true

/-- C5 counterexample: the claim orders the teardown as ... persist the
best-chain pointer, then flush wallet state, then stop peer networking ...;
in the code (with a wallet present) `StopNode` executes strictly before
`SetBestChain`, so the best-chain pointer is persisted only after peer
networking has already been stopped. -/
theorem shutdown_order_claim_false :
    ¬ ((shutdownBody true).indexOf SEvent.setBestChain
        < (shutdownBody true).indexOf SEvent.stopNode) := by
  decide

/-- C5 amended: the actual teardown order is: stop accepting new RPC and
secure-messaging work, stop RPC mining, asynchronous wallet flush, stop peer
networking, persist the best-chain pointer, final wallet flush, remove the
pid file, then release the remaining owned resources (unregister all wallets
and delete the wallet object); with no wallet, the wallet steps are skipped. -/
theorem shutdown_teardown_order :
    shutdownBody true =
      [SEvent.addTransactionsUpdated, SEvent.stopRPCThreads,
       SEvent.secureMsgShutdown, SEvent.shutdownRPCMining,
       SEvent.flushWallet false, SEvent.stopNode, SEvent.setBestChain,
       SEvent.flushWallet true, SEvent.removePidFile,
       SEvent.unregisterAllWallets, SEvent.deleteWallet] ∧
    shutdownBody false =
      [SEvent.addTransactionsUpdated, SEvent.stopRPCThreads,
       SEvent.secureMsgShutdown, SEvent.shutdownRPCMining,
       SEvent.stopNode, SEvent.removePidFile,
       SEvent.unregisterAllWallets] := by
  exact ⟨rfl, rfl⟩

/-- C7 counterexample: the claim states that each of the two
seen-stake-kernel sets is configured with two reserved sentinel values; in
`InitializeCollections` the main-chain set `setStakeSeen` is configured with
only the empty-key sentinel and never receives a deleted-key sentinel. -/
theorem setStakeSeen_has_no_deleted_sentinel :
    InitializeCollections.setStakeSeen.deletedKey = none := by
  rfl

/-- C7 amended: the orphan set is configured with both sentinels — empty
`(null outpoint, UINT_MAX)` and deleted `(null outpoint, UINT_MAX - 1)` —
which are distinct from each other; the main-chain set is configured with
only the empty sentinel.  Every configured sentinel differs from every real
key (a real key's outpoint references an actual spent output, never the
null outpoint), a key equal to a sentinel of the orphan set is never
insertable, and a sentinel is never reported as present. -/
theorem stake_sentinel_configuration :
    (InitializeCollections.setStakeSeen.deletedKey = none ∧
     InitializeCollections.setStakeSeen.emptyKey.isSome = true) ∧
    (InitializeCollections.setStakeSeenOrphan.emptyKey.isSome = true ∧
     InitializeCollections.setStakeSeenOrphan.deletedKey.isSome = true ∧
     InitializeCollections.setStakeSeenOrphan.emptyKey
       ≠ InitializeCollections.setStakeSeenOrphan.deletedKey) ∧
    (∀ k : StakeKey, k.1 ≠ COutPoint.null →
       InitializeCollections.setStakeSeen.emptyKey ≠ some k ∧
       InitializeCollections.setStakeSeenOrphan.emptyKey ≠ some k ∧
       InitializeCollections.setStakeSeenOrphan.deletedKey ≠ some k) ∧
    (∀ (elems : List StakeKey) (k : StakeKey),
       (DenseHashSet.mk InitializeCollections.setStakeSeenOrphan elems).isSentinel k = true →
         ((DenseHashSet.mk InitializeCollections.setStakeSeenOrphan elems).insertKey k).elems
             = elems ∧
         (DenseHashSet.mk InitializeCollections.setStakeSeenOrphan elems).containsKey k
             = false) := by
  refine ⟨⟨rfl, rfl⟩, ⟨rfl, rfl, by decide⟩, ?_, ?_⟩
  · intro k hk
    refine ⟨?_, ?_, ?_⟩ <;>
      · intro h
        apply hk
        simp only [InitializeCollections, Option.some.injEq] at h
        rw [← (Prod.mk.injEq _ _ _ _).mp h.symm |>.1]
  · intro elems k hk
    constructor
    · simp only [DenseHashSet.insertKey, hk, if_true]
    · simp only [DenseHashSet.containsKey, hk, if_true]

/-- C7 amended witness: the real key `((7, 0), 5)` differs from every
configured sentinel, and the orphan set's empty sentinel is neither
insertable nor reported present on an empty set. -/
theorem stake_sentinel_configuration_witness :
    (InitializeCollections.setStakeSeen.emptyKey ≠ some (⟨7, 0⟩, 5) ∧
     InitializeCollections.setStakeSeenOrphan.emptyKey ≠ some (⟨7, 0⟩, 5) ∧
     InitializeCollections.setStakeSeenOrphan.deletedKey ≠ some (⟨7, 0⟩, 5)) ∧
    ((DenseHashSet.mk InitializeCollections.setStakeSeenOrphan []).insertKey
        (COutPoint.null, UINT32_MAX)).elems = [] ∧
    (DenseHashSet.mk InitializeCollections.setStakeSeenOrphan []).containsKey
        (COutPoint.null, UINT32_MAX) = false :=
  ⟨stake_sentinel_configuration.2.2.1 (⟨7, 0⟩, 5) (by decide),
   (stake_sentinel_configuration.2.2.2 [] (COutPoint.null, UINT32_MAX) (by decide)).1,
   (stake_sentinel_configuration.2.2.2 [] (COutPoint.null, UINT32_MAX) (by decide)).2⟩

theorem softSetBoolArg_some (b v : Bool) : softSetBoolArg (some b) v = some b := rfl

theorem stepTestnet_preserves (a : Args) (o : BoolOpt) (b : Bool)
    (h : getOpt a o = some b) : getOpt (stepTestnet a) o = some b := by
  cases o <;> simp only [stepTestnet, getOpt] at h ⊢ <;> split <;>
    simp_all [softSetBoolArg_some]

theorem stepBind_preserves (a : Args) (o : BoolOpt) (b : Bool)
    (h : getOpt a o = some b) : getOpt (stepBind a) o = some b := by
  cases o <;> simp only [stepBind, getOpt] at h ⊢ <;> split <;>
    simp_all [softSetBoolArg_some]

theorem stepConnect_preserves (a : Args) (o : BoolOpt) (b : Bool)
    (h : getOpt a o = some b) : getOpt (stepConnect a) o = some b := by
  cases o <;> simp only [stepConnect, getOpt] at h ⊢ <;> split <;>
    simp_all [softSetBoolArg_some]

theorem stepProxy_preserves (a : Args) (o : BoolOpt) (b : Bool)
    (h : getOpt a o = some b) : getOpt (stepProxy a) o = some b := by
  cases o <;> simp only [stepProxy, getOpt] at h ⊢ <;> split <;>
    simp_all [softSetBoolArg_some]

theorem stepListen_preserves (a : Args) (o : BoolOpt) (b : Bool)
    (h : getOpt a o = some b) : getOpt (stepListen a) o = some b := by
  cases o <;> simp only [stepListen, getOpt] at h ⊢ <;> split <;>
    simp_all [softSetBoolArg_some]

theorem stepExternalip_preserves (a : Args) (o : BoolOpt) (b : Bool)
    (h : getOpt a o = some b) : getOpt (stepExternalip a) o = some b := by
  cases o <;> simp only [stepExternalip, getOpt] at h ⊢ <;> split <;>
    simp_all [softSetBoolArg_some]

theorem stepSalvage_preserves (a : Args) (o : BoolOpt) (b : Bool)
    (h : getOpt a o = some b) : getOpt (stepSalvage a) o = some b := by
  cases o <;> simp only [stepSalvage, getOpt] at h ⊢ <;> split <;>
    simp_all [softSetBoolArg_some]

/-- C1: for every argument record, if the operator explicitly set one of
the soft-settable options (`-listen`, `-dnsseed`, `-discover`, `-upnp`,
`-rescan`, `-irc`), the parameter-interaction phase of `AppInit2` leaves
that option's value unchanged: every declared rule goes through
`SoftSetBoolArg` and therefore only fills in options the operator left
unset. -/
theorem interaction_preserves_explicit (a : Args) (o : BoolOpt) (b : Bool)
    (h : getOpt a o = some b) : getOpt (interact a) o = some b := by
  unfold interact
  exact stepSalvage_preserves _ _ _ (stepExternalip_preserves _ _ _
    (stepListen_preserves _ _ _ (stepProxy_preserves _ _ _
      (stepConnect_preserves _ _ _ (stepBind_preserves _ _ _
        (stepTestnet_preserves _ _ _ h))))))

/-- C1 witness: with `-listen=1` explicitly set alongside `-proxy` and
`-connect`, the interaction phase keeps `-listen=1`. -/
theorem interaction_preserves_explicit_witness :
    getOpt (interact argsExplicitListen) BoolOpt.listen = some true :=
  interaction_preserves_explicit argsExplicitListen BoolOpt.listen true rfl

/-- C9: when InstantX is enabled and the supplied confirmation depth is
negative, the depth adjustment zeroes the unrelated `nAnonymizeSwippAmount`
(even though that variable was just clamped to at least 2), while
`nInstantXDepth` keeps the negative supplied value unchanged. -/
theorem instantx_negative_depth_zeroes_anonymize (a : Args)
    (h1 : a.enableinstantx.getD true = true)
    (h2 : a.instantxdepth.getD 5 < 0) :
    (resolveDarksendInstantX a).nAnonymizeSwippAmount = 0 ∧
    (resolveDarksendInstantX a).nInstantXDepth = a.instantxdepth.getD 5 := by
  have h60 : ¬ a.instantxdepth.getD 5 > 60 := by omega
  simp only [resolveDarksendInstantX, h1, if_true, h60, if_false, h2]
  exact ⟨trivial, trivial⟩

/-- C9 witness: with `-instantxdepth=-3` and InstantX left at its enabled
default, the anonymization amount resolves to 0 and the depth stays -3. -/
theorem instantx_negative_depth_zeroes_anonymize_witness :
    (resolveDarksendInstantX negativeDepthArgs).nAnonymizeSwippAmount = 0 ∧
    (resolveDarksendInstantX negativeDepthArgs).nInstantXDepth =
      negativeDepthArgs.instantxdepth.getD 5 :=
  instantx_negative_depth_zeroes_anonymize negativeDepthArgs (by decide) (by decide)

/-- C10: a nonzero `-liquidityprovider` force-enables Darksend and sets the
round count to 99999, overriding any supplied `-enabledarksend` or
`-darksendrounds` value and the `[1, 16]` clamp applied just before. -/
theorem liquidity_provider_overrides (a : Args)
    (h : a.liquidityprovider.getD 0 ≠ 0) :
    (resolveDarksendInstantX a).fEnableDarksend = true ∧
    (resolveDarksendInstantX a).nDarksendRounds = 99999 := by
  simp only [resolveDarksendInstantX, h, if_true]
  split <;> exact ⟨rfl, rfl⟩

/-- C10 witness: with `-liquidityprovider=5`, `-enabledarksend=0` and
`-darksendrounds=4`, mixing resolves enabled with 99999 rounds. -/
theorem liquidity_provider_overrides_witness :
    (resolveDarksendInstantX liquidityArgs).fEnableDarksend = true ∧
    (resolveDarksendInstantX liquidityArgs).nDarksendRounds = 99999 :=
  liquidity_provider_overrides liquidityArgs (by decide)

/-- Closed form of the resolved round count: the liquidity-provider
override wins, otherwise the supplied value is clamped into `[1, 16]`. -/
theorem darksend_rounds_characterization (a : Args) :
    (resolveDarksendInstantX a).nDarksendRounds =
      if a.liquidityprovider.getD 0 ≠ 0 then 99999
      else if a.darksendrounds.getD 2 > 16 then 16
      else if a.darksendrounds.getD 2 < 1 then 1
      else a.darksendrounds.getD 2 := by
  simp only [resolveDarksendInstantX]
  split_ifs <;> first | rfl | omega

/-- Closed form of the resolved anonymization amount: the supplied value is
clamped into `[2, 999999]`, then zeroed when InstantX is enabled with a
negative depth. -/
theorem anonymize_amount_characterization (a : Args) :
    (resolveDarksendInstantX a).nAnonymizeSwippAmount =
      if a.enableinstantx.getD true = true ∧ a.instantxdepth.getD 5 < 0 then 0
      else if a.anonymizeSwippamount.getD 0 > 999999 then 999999
      else if a.anonymizeSwippamount.getD 0 < 2 then 2
      else a.anonymizeSwippamount.getD 0 := by
  simp only [resolveDarksendInstantX]
  cases he : a.enableinstantx.getD true <;>
    simp only [he, Bool.false_eq_true, false_and, if_false, eq_self_iff_true,
      true_and, if_true, Bool.true_eq_false] <;>
    split_ifs <;> first | rfl | omega

/-- C3 amended: supplied values outside the hard-coded numeric ranges do
not fail startup resolution and no error names them; instead an
out-of-range `-timeout` is silently ignored (the 5000 default is kept), the
`-darksendrounds` value is clamped into `[1, 16]` (absent the
liquidity-provider override), and the `-anonymizeSwippamount` value is
clamped into `[2, 999999]` (later zeroed only by the negative InstantX
depth adjustment). -/
theorem out_of_range_values_clamped_not_rejected (v : Int) (a : Args) :
    (¬ (0 < v ∧ v < 600000) → resolveTimeout (some v) = 5000) ∧
    (a.liquidityprovider.getD 0 = 0 →
       1 ≤ (resolveDarksendInstantX a).nDarksendRounds ∧
       (resolveDarksendInstantX a).nDarksendRounds ≤ 16) ∧
    ((a.enableinstantx.getD true = false ∨ 0 ≤ a.instantxdepth.getD 5) →
       2 ≤ (resolveDarksendInstantX a).nAnonymizeSwippAmount ∧
       (resolveDarksendInstantX a).nAnonymizeSwippAmount ≤ 999999) := by
  refine ⟨fun h => by simp [resolveTimeout, h], fun h => ?_, fun h => ?_⟩
  · rw [darksend_rounds_characterization]
    rw [h]
    split_ifs <;> omega
  · rw [anonymize_amount_characterization]
    have hn : ¬ (a.enableinstantx.getD true = true ∧ a.instantxdepth.getD 5 < 0) := by
      rcases h with h | h
      · rintro ⟨he, -⟩
        rw [h] at he
        exact Bool.false_ne_true he
      · rintro ⟨-, hd⟩
        omega
    rw [if_neg hn]
    split_ifs <;> omega

/-- C3 amended witness: `-timeout=600000` (at the exclusive upper bound) is
ignored, `-darksendrounds=100` is clamped to at most 16 and at least 1, and
`-anonymizeSwippamount=7000000` is clamped into `[2, 999999]`. -/
theorem out_of_range_values_clamped_not_rejected_witness :
    resolveTimeout (some 600000) = 5000 ∧
    (1 ≤ (resolveDarksendInstantX outOfRangeArgs).nDarksendRounds ∧
     (resolveDarksendInstantX outOfRangeArgs).nDarksendRounds ≤ 16) ∧
    (2 ≤ (resolveDarksendInstantX outOfRangeArgs).nAnonymizeSwippAmount ∧
     (resolveDarksendInstantX outOfRangeArgs).nAnonymizeSwippAmount ≤ 999999) :=
  ⟨(out_of_range_values_clamped_not_rejected 600000 outOfRangeArgs).1 (by decide),
   (out_of_range_values_clamped_not_rejected 600000 outOfRangeArgs).2.1 (by decide),
   (out_of_range_values_clamped_not_rejected 600000 outOfRangeArgs).2.2 (by decide)⟩

/-- C6: a requested full rescan starts from genesis; otherwise the start
point is the block referenced by the wallet's persisted best-block locator,
or genesis when no such record exists; and a rescan is performed only when
the current best height strictly exceeds the start point's height — in
particular a checkpoint at height at least the best height never triggers a
rescan. -/
theorem rescan_start_point_and_guard
    (pindexBest pindexGenesisBlock locatorIndex : Option CBlockIndex)
    (readBestBlock : Option (Option CBlockIndex)) (best checkpoint : CBlockIndex) :
    (rescanStartPoint true pindexBest pindexGenesisBlock readBestBlock
        = pindexGenesisBlock) ∧
    (rescanStartPoint false pindexBest pindexGenesisBlock (some locatorIndex)
        = locatorIndex) ∧
    (rescanStartPoint false pindexBest pindexGenesisBlock none
        = pindexGenesisBlock) ∧
    (rescanNeeded pindexBest locatorIndex = true →
        heightOf pindexBest > heightOf locatorIndex) ∧
    (checkpoint.nHeight ≥ best.nHeight →
        rescanNeeded (some best) (some checkpoint) = false) := by
  refine ⟨rfl, rfl, rfl, fun h => ?_, fun h => ?_⟩
  · simp only [rescanNeeded, Bool.and_eq_true, decide_eq_true_eq] at h
    exact h.2
  · simp only [rescanNeeded, Bool.and_eq_true, decide_eq_true_eq, heightOf,
      Bool.and_eq_false_iff, decide_eq_false_iff_not]
    right
    omega

/-- C6 witness: with a best block at height 10 and a persisted checkpoint
at height 10, no rescan is performed; with a stale checkpoint at height 4,
the guard holding implies the strict height inequality. -/
theorem rescan_start_point_and_guard_witness :
    (rescanStartPoint true (some ⟨1, 10⟩) (some ⟨0, 0⟩) none = some ⟨0, 0⟩) ∧
    heightOf (some ⟨1, 10⟩) > heightOf (some ⟨2, 4⟩) ∧
    rescanNeeded (some ⟨1, 10⟩) (some ⟨3, 10⟩) = false :=
  ⟨(rescan_start_point_and_guard (some ⟨1, 10⟩) (some ⟨0, 0⟩) (some ⟨2, 4⟩)
      none ⟨1, 10⟩ ⟨3, 10⟩).1,
   (rescan_start_point_and_guard (some ⟨1, 10⟩) (some ⟨0, 0⟩) (some ⟨2, 4⟩)
      none ⟨1, 10⟩ ⟨3, 10⟩).2.2.2.1 (by decide),
   (rescan_start_point_and_guard (some ⟨1, 10⟩) (some ⟨0, 0⟩) (some ⟨2, 4⟩)
      none ⟨1, 10⟩ ⟨3, 10⟩).2.2.2.2 (by decide)⟩

/-- C2 counterexample: with masternode mode and lite mode both configured
(and a masternode key supplied, all external operations succeeding),
startup does fail with the masternode-in-litemode error, but the event
trace already contains the listen bind attempts: the abort happens after
network listen binds were attempted, not before. -/
theorem masternode_litemode_abort_after_bind :
    (AppInit2 mnLiteArgs extAll).2 = Except.error InitErr.masternodeInLitemode ∧
    (AppInit2 mnLiteArgs extAll).1 =
      [Event.bindAttempt "[::]", Event.bindAttempt "0.0.0.0"] :=
  ⟨rfl, rfl⟩

/-- C2 amended: if the node is configured both as a masternode and in lite
mode (with a masternode key that loads and a bindable IPv4 wildcard),
startup fails fast with the masternode-in-litemode error
(`InvalidModeCombination`), but only after the network listen binds have
been attempted — the mutual-exclusivity check sits near the end of
initialization, after the bind phase. -/
theorem masternode_litemode_error_after_binds (ext : Ext)
    (hkey : ext.setKeyOK "key" = true)
    (hbind : ext.bindListenOK "0.0.0.0" = true) :
    AppInit2 mnLiteArgs ext =
      ([Event.bindAttempt "[::]", Event.bindAttempt "0.0.0.0"],
       Except.error InitErr.masternodeInLitemode) := by
  have hemp : ("" : String).isEmpty = true := rfl
  have hkeyne : ("key" : String).isEmpty = false := rfl
  simp [AppInit2, interact, stepTestnet, stepBind, stepConnect, stepProxy,
    stepListen, stepExternalip, stepSalvage, mnLiteArgs, emptyArgs,
    limitedNets, wildcardBind, externalIpLoop, masternodeStep,
    resolveTimeout, hkey, hbind, hemp, hkeyne]

/-- C2 amended witness: the all-succeeding environment satisfies the two
oracle hypotheses, and the run ends in the masternode-in-litemode error
with both wildcard bind attempts in the trace. -/
theorem masternode_litemode_error_after_binds_witness :
    AppInit2 mnLiteArgs extAll =
      ([Event.bindAttempt "[::]", Event.bindAttempt "0.0.0.0"],
       Except.error InitErr.masternodeInLitemode) :=
  masternode_litemode_error_after_binds extAll rfl rfl

/-- C8: when the operator sets only `-proxy=127.0.0.1:9050` (a valid
address) and nothing else, the resolved configuration has listening
disabled and address discovery disabled, and the proxy is registered for
both the IPv4 and IPv6 network classes (and additionally as name and Tor
proxy, per the source). -/
theorem proxy_only_effective_config (ext : Ext)
    (hvalid : ext.serviceValid "127.0.0.1:9050" = true) :
    AppInit2 proxyOnlyArgs ext =
      ([], Except.ok
        { nConnectTimeout := 5000
          fNoListen := true
          fDiscover := false
          fNameLookup := true
          proxyIPv4 := some "127.0.0.1:9050"
          proxyIPv6 := some "127.0.0.1:9050"
          proxyTor := some "127.0.0.1:9050"
          nameProxy := some "127.0.0.1:9050"
          fMasterNode := false
          fLiteMode := false
          fEnableDarksend := false
          nDarksendRounds := 2
          nLiquidityProvider := 0
          nAnonymizeSwippAmount := 2
          nInstantXDepth := 5 }) := by
  simp [AppInit2, interact, stepTestnet, stepBind, stepConnect, stepProxy,
    stepListen, stepExternalip, stepSalvage, proxyOnlyArgs, emptyArgs,
    limitedNets, externalIpLoop, masternodeStep, resolveTimeout,
    resolveDarksendInstantX, softSetBoolArg, hvalid]

/-- C8 witness: in the all-succeeding environment the proxy address is
valid and the scenario resolves as stated. -/
theorem proxy_only_effective_config_witness :
    (AppInit2 proxyOnlyArgs extAll).2.toOption.map Effective.fNoListen = some true ∧
    (AppInit2 proxyOnlyArgs extAll).2.toOption.map Effective.fDiscover = some false ∧
    (AppInit2 proxyOnlyArgs extAll).2.toOption.map Effective.proxyIPv4
        = some (some "127.0.0.1:9050") ∧
    (AppInit2 proxyOnlyArgs extAll).2.toOption.map Effective.proxyIPv6
        = some (some "127.0.0.1:9050") := by
  rw [proxy_only_effective_config extAll rfl]
  exact ⟨rfl, rfl, rfl, rfl⟩

/-- C3 counterexample: with `-timeout=600000`, `-darksendrounds=100` and
`-anonymizeSwippamount=7000000` all outside their hard-coded ranges (and
every external operation succeeding), startup resolution succeeds instead
of failing with a configuration error: the timeout is silently ignored
(5000 kept) and the other two values are clamped. -/
theorem out_of_range_values_accepted :
    (AppInit2 outOfRangeArgs extAll).2 =
      Except.ok
        { nConnectTimeout := 5000
          fNoListen := false
          fDiscover := true
          fNameLookup := true
          proxyIPv4 := none
          proxyIPv6 := none
          proxyTor := none
          nameProxy := none
          fMasterNode := false
          fLiteMode := false
          fEnableDarksend := false
          nDarksendRounds := 16
          nLiquidityProvider := 0
          nAnonymizeSwippAmount := 999999
          nInstantXDepth := 5 } :=
  rfl

end Swippcore
